import Mathlib

/-!
Verification of the stock-data-fetcher Lambda
(`backend/lambdas/stock-data-fetcher/index.js` and the second handler
variant shipped alongside it).

The JavaScript source is shallowly embedded as pure Lean functions.
External collaborators (DynamoDB, the Alpha Vantage HTTP endpoint, the
clock) are modelled as explicit inputs:

* the DynamoDB table is a list of items keyed by `(symbol, dataType)`
  (variant 2: `(symbol, date)`); `get`/`put` failures are injected by
  boolean flags, matching the `try/catch` blocks around
  `dynamodb.get` / `dynamodb.put`;
* the Alpha Vantage call for a symbol is an `AvHttp` value: either a
  transport-level failure (axios throwing — network error, timeout,
  malformed body) or a response carrying the optional "Error Message"
  and "Note" fields and the parsed "Global Quote" payload.  The
  permissive numeric parsing of the quote fields (`parseFloat(...) || 0`)
  is total and cannot fail, so the parsed `Quote` stands for the
  "Global Quote" object; `none` stands for a missing or empty object;
* `Date.now()` (epoch seconds), `toISOString()` and the `YYYY-MM-DD`
  date prefix are the `now`, `nowIso` and `today` fields of `Env`.

Numeric quote fields are carried opaquely (the handler never computes
with them), so JavaScript floats are represented by `Int` and volumes
by `Int` as well; only (deep-)equality of quotes matters to the
properties below.
-/

namespace StockFetcher

/-- The canonical quote record built by `fetchFromAlphaVantage`
(lines 214-225 of index.js).  `openPrice` embeds the source field
`open` (a Lean keyword). -/
structure Quote where
  symbol : String
  price : Int
  change : Int
  changePct : Int
  volume : Int
  latestTradingDay : String
  previousClose : Int
  openPrice : Int
  high : Int
  low : Int
deriving DecidableEq, Repr

/-- A per-symbol outcome of `fetchQuoteWithCache`: the JS object
`{...quote, cached: bool}`. -/
structure QuoteResult where
  quote : Quote
  cached : Bool
deriving DecidableEq, Repr

/-- A DynamoDB item as written by `saveToCache` (index.js lines 175-185):
key `(symbol, dataType)`, payload `data`, expiry `ttl` (epoch seconds),
write time `timestamp`, diagnostic `updatedAt`. -/
structure CacheItem where
  symbol : String
  dataType : String
  data : Quote
  ttl : Nat
  timestamp : Nat
  updatedAt : String
deriving DecidableEq, Repr

/-- The DynamoDB table contents, keyed by `(symbol, dataType)`. -/
abbrev Table := List CacheItem

/-- DynamoDB `GetItem` on key `(symbol, dataType)`. -/
def tableGet (t : Table) (symbol dataType : String) : Option CacheItem :=
  t.find? (fun it => it.symbol == symbol && it.dataType == dataType)

/-- DynamoDB `PutItem`: unconditionally replaces the item under the
item's key. -/
def putItem (t : Table) (it : CacheItem) : Table :=
  it :: t.filter (fun x => !(x.symbol == it.symbol && x.dataType == it.dataType))

/-- `getFromCache` (index.js lines 150-170): `GetItem` on
`(symbol, "quote")`; returns the `data` payload when the item exists and
`item.ttl > now`, `null` otherwise; any store-access error is caught and
also yields `null`.  `getFails` injects the catch branch. -/
def getFromCache (now : Nat) (table : Table) (getFails : Bool) (symbol : String) :
    Option Quote :=
  if getFails then none
  else
    match tableGet table symbol "quote" with
    | some item => if now < item.ttl then some item.data else none
    | none => none

/-- The outcome of one Alpha Vantage HTTP request for one symbol:
either axios throwing (network / timeout / parse failure) or a JSON
response with the optional error-indicator fields and the (parsed)
"Global Quote" object — `none` when that object is missing or empty. -/
inductive AvHttp where
  | fail : AvHttp
  | resp (errorMessage : Option String) (note : Option String)
      (globalQuote : Option Quote) : AvHttp

/-- `fetchFromAlphaVantage` (index.js lines 194-231).  Every `throw` in
the source is caught by the function's own `catch`, which returns
`null`: missing API key, transport failure, "Error Message" present
(upstream error), "Note" present (rate limit), missing/empty
"Global Quote" (no data).  Only a clean response with a quote payload
returns the quote. -/
def fetchFromAlphaVantage (apiKey : Option String) (http : AvHttp) : Option Quote :=
  match apiKey with
  | none => none
  | some _ =>
    match http with
    | .fail => none
    | .resp errorMessage note globalQuote =>
      if errorMessage.isSome then none
      else if note.isSome then none
      else globalQuote

/-- The five provider error kinds of the spec taxonomy: missing
credential, transport failure, upstream error ("Error Message"),
rate limit ("Note"), no data (missing/empty "Global Quote"). -/
def isProviderError (apiKey : Option String) (http : AvHttp) : Bool :=
  apiKey.isNone ||
    match http with
    | .fail => true
    | .resp errorMessage note globalQuote =>
      errorMessage.isSome || note.isSome || globalQuote.isNone

/-- The per-invocation environment: clock values, configuration
(`CACHE_TTL`, `ALPHA_VANTAGE_API_KEY`), injected store failures, and
the provider's behaviour per symbol.  `today` is the `YYYY-MM-DD`
prefix of `nowIso`, used only by the second handler variant's cache
key. -/
structure Env where
  now : Nat
  nowIso : String
  today : String
  cacheTtl : Nat
  apiKey : Option String
  getFails : Bool
  putFails : Bool
  provider : String → AvHttp

/-- The item `saveToCache` writes for a fetched quote
(index.js lines 175-185): `ttl = now + CACHE_TTL`. -/
def cacheItemFor (env : Env) (symbol : String) (data : Quote) : CacheItem :=
  { symbol := symbol, dataType := "quote", data := data,
    ttl := env.now + env.cacheTtl, timestamp := env.now, updatedAt := env.nowIso }

/-- `saveToCache` (index.js lines 172-192): `PutItem` of `cacheItemFor`;
a store failure is caught and leaves the table unchanged (nothing is
propagated). -/
def saveToCache (env : Env) (table : Table) (symbol : String) (data : Quote) : Table :=
  if env.putFails then table else putItem table (cacheItemFor env symbol data)

/-- The observable effects of one `fetchQuoteWithCache` call: its return
value, the table afterwards, how many provider requests were issued, and
the items passed to `saveToCache` (recorded whether or not the put
succeeds). -/
structure FetchOutcome where
  result : Option QuoteResult
  table : Table
  providerCalls : Nat
  storePuts : List CacheItem

/-- `fetchQuoteWithCache` (index.js lines 128-148), the cache-aside
orchestration for one symbol: cache hit returns `{...cached, cached:true}`
with no provider call; on a miss the provider is called once; a provider
error returns `null`; a provider success attempts exactly one cache
store and returns `{...quote, cached:false}` regardless of the store's
outcome. -/
def fetchQuoteWithCache (env : Env) (table : Table) (symbol : String) : FetchOutcome :=
  match getFromCache env.now table env.getFails symbol with
  | some q =>
    { result := some { quote := q, cached := true }, table := table,
      providerCalls := 0, storePuts := [] }
  | none =>
    match fetchFromAlphaVantage env.apiKey (env.provider symbol) with
    | none => { result := none, table := table, providerCalls := 1, storePuts := [] }
    | some q =>
      { result := some { quote := q, cached := false },
        table := saveToCache env table symbol q,
        providerCalls := 1, storePuts := [cacheItemFor env symbol q] }

/-- The trigger event, reduced to the three fields the handler inspects:
`event.pathParameters?.symbol`, `event.queryStringParameters?.symbols`,
and `event.symbols` when it is an array.  Absent objects and non-array
`symbols` values behave as `none`. -/
structure Event where
  pathSymbol : Option String
  querySymbols : Option String
  eventSymbols : Option (List String)
deriving DecidableEq, Repr

/-- JavaScript truthiness of an optional string field: present and
non-empty. -/
def truthyStr : Option String → Bool
  | some s => s != ""
  | none => false

/-- The whitespace class JavaScript `trim()` strips (the characters
relevant to ticker input: space, tab, newline, carriage return,
vertical tab, form feed). -/
def isJsWhitespace (c : Char) : Bool :=
  c == ' ' || c == '\t' || c == '\n' || c == '\r' || c == '\x0b' || c == '\x0c'

/-- JavaScript `s.trim()`, character-level: drop whitespace from both
ends. -/
def jsTrim (cs : List Char) : List Char :=
  ((cs.dropWhile isJsWhitespace).reverse.dropWhile isJsWhitespace).reverse

/-- `s.trim().toUpperCase()` (ASCII uppercasing, as `toUpperCase`
performs on ticker characters). -/
def normalize (s : String) : String := String.mk ((jsTrim s.data).map Char.toUpper)

/-- JavaScript `s.split(',')` (non-empty separator): the maximal
comma-free segments, so `""` splits to `[""]` and separators at the ends
produce empty segments. -/
def jsSplitComma (s : String) : List String :=
  (s.data.splitOn ',').map String.mk

/-- `DEFAULT_SYMBOLS` of index.js (line 17). -/
def DEFAULT_SYMBOLS : List String :=
  ["AAPL", "MSFT", "AMZN", "NVDA", "TSLA", "META", "GOOGL", "BRK.B", "JPM", "JNJ"]

/-- The symbol-set resolution of the handler (index.js lines 29-60),
first match wins: truthy path symbol, truthy comma-separated query
value, `symbols` array, default list. -/
def resolveSymbols (e : Event) : List String :=
  if truthyStr e.pathSymbol then [normalize (e.pathSymbol.getD "")]
  else if truthyStr e.querySymbols then (jsSplitComma (e.querySymbols.getD "")).map normalize
  else
    match e.eventSymbols with
    | some l => l.map normalize
    | none => DEFAULT_SYMBOLS

/-- A response body: the single-quote success shape, the multi-quote
success shape (`success` is the optional top-level flag that only the
second handler variant emits), or the error shape
`{success:false, error, timestamp}`. -/
inductive Body where
  | singleQuote (symbol : String) (quote : QuoteResult) (cached : Bool) : Body
  | multiQuote (success : Option Bool) (quotes : List QuoteResult) (timestamp : String)
      (cached : Nat) (fresh : Nat) : Body
  | err (success : Bool) (error : String) (timestamp : String) : Body
deriving DecidableEq, Repr

/-- A Lambda proxy response; the constant CORS headers are omitted. -/
structure Response where
  statusCode : Nat
  body : Body
deriving DecidableEq, Repr

/-- `successResponse` (index.js lines 98-109): HTTP 200 around the body. -/
def successResponse (body : Body) : Response :=
  { statusCode := 200, body := body }

/-- `errorResponse` (index.js lines 111-124): HTTP 400 around
`{success:false, error: message, timestamp}`. -/
def errorResponse (nowIso : String) (message : String) : Response :=
  { statusCode := 400, body := .err false message nowIso }

/-- The fan-out `symbols.map(fetchQuoteWithCache)` (index.js line 68):
each symbol is resolved independently against the invocation's initial
table (distinct symbols touch distinct keys, so the concurrent
resolutions do not interact through the table). -/
def runSymbols (env : Env) (table : Table) (symbols : List String) :
    List (Option QuoteResult) :=
  symbols.map (fun s => (fetchQuoteWithCache env table s).result)

/-- `exports.handler` (index.js lines 19-96): resolve symbols, reject an
empty resolution, fan out, filter the null outcomes, then compose the
single-quote shape (path-parameter triggers) or the multi-quote shape. -/
def handler (env : Env) (table : Table) (e : Event) : Response :=
  let symbols := resolveSymbols e
  if symbols.length = 0 then errorResponse env.nowIso "No symbols provided."
  else
    let validQuotes := (runSymbols env table symbols).filterMap id
    if truthyStr e.pathSymbol then
      match validQuotes with
      | [] =>
        errorResponse env.nowIso ("Stock symbol '" ++ symbols.headD "" ++ "' not found.")
      | q :: _ => successResponse (.singleQuote (symbols.headD "") q q.cached)
    else
      successResponse (.multiQuote none validQuotes env.nowIso
        (validQuotes.filter (fun q => q.cached)).length
        (validQuotes.filter (fun q => !q.cached)).length)

/-!
The second handler variant (the near-duplicate file shipped next to
index.js).  The cache key's sort attribute is `date`, holding today's
`YYYY-MM-DD` string instead of the constant `"quote"`; the default
symbol list has six tickers instead of ten; the multi-quote response
carries a top-level `success: true` flag; the cache + provider logic is
otherwise character-for-character the same.
-/

/-- A DynamoDB item as written by the second variant's `saveToCache`:
key `(symbol, date)`. -/
structure CacheItemV2 where
  symbol : String
  date : String
  data : Quote
  ttl : Nat
  timestamp : Nat
  updatedAt : String
deriving DecidableEq, Repr

/-- The second variant's table, keyed by `(symbol, date)`. -/
abbrev TableV2 := List CacheItemV2

/-- DynamoDB `GetItem` on key `(symbol, date)`. -/
def tableGetV2 (t : TableV2) (symbol date : String) : Option CacheItemV2 :=
  t.find? (fun it => it.symbol == symbol && it.date == date)

/-- DynamoDB `PutItem` for the second variant's key. -/
def putItemV2 (t : TableV2) (it : CacheItemV2) : TableV2 :=
  it :: t.filter (fun x => !(x.symbol == it.symbol && x.date == it.date))

/-- The second variant's `getFromCache`: `GetItem` on `(symbol, today)`,
then the same freshness test and error swallowing as variant 1. -/
def getFromCacheV2 (now : Nat) (today : String) (table : TableV2) (getFails : Bool)
    (symbol : String) : Option Quote :=
  if getFails then none
  else
    match tableGetV2 table symbol today with
    | some item => if now < item.ttl then some item.data else none
    | none => none

/-- The item the second variant's `saveToCache` writes. -/
def cacheItemForV2 (env : Env) (symbol : String) (data : Quote) : CacheItemV2 :=
  { symbol := symbol, date := env.today, data := data,
    ttl := env.now + env.cacheTtl, timestamp := env.now, updatedAt := env.nowIso }

/-- The second variant's `saveToCache`: put under `(symbol, today)`,
failures swallowed. -/
def saveToCacheV2 (env : Env) (table : TableV2) (symbol : String) (data : Quote) :
    TableV2 :=
  if env.putFails then table else putItemV2 table (cacheItemForV2 env symbol data)

/-- The observable effects of one variant-2 `fetchQuoteWithCache` call. -/
structure FetchOutcomeV2 where
  result : Option QuoteResult
  table : TableV2
  providerCalls : Nat
  storePuts : List CacheItemV2

/-- The second variant's `fetchQuoteWithCache`: identical orchestration,
variant-2 cache operations. -/
def fetchQuoteWithCacheV2 (env : Env) (table : TableV2) (symbol : String) :
    FetchOutcomeV2 :=
  match getFromCacheV2 env.now env.today table env.getFails symbol with
  | some q =>
    { result := some { quote := q, cached := true }, table := table,
      providerCalls := 0, storePuts := [] }
  | none =>
    match fetchFromAlphaVantage env.apiKey (env.provider symbol) with
    | none => { result := none, table := table, providerCalls := 1, storePuts := [] }
    | some q =>
      { result := some { quote := q, cached := false },
        table := saveToCacheV2 env table symbol q,
        providerCalls := 1, storePuts := [cacheItemForV2 env symbol q] }

/-- The second variant's `DEFAULT_SYMBOLS`: six tickers. -/
def DEFAULT_SYMBOLS_V2 : List String :=
  ["AAPL", "MSFT", "AMZN", "NVDA", "TSLA", "META"]

/-- The second variant's symbol resolution: same branches, its own
default list. -/
def resolveSymbolsV2 (e : Event) : List String :=
  if truthyStr e.pathSymbol then [normalize (e.pathSymbol.getD "")]
  else if truthyStr e.querySymbols then (jsSplitComma (e.querySymbols.getD "")).map normalize
  else
    match e.eventSymbols with
    | some l => l.map normalize
    | none => DEFAULT_SYMBOLS_V2

/-- The second variant's fan-out. -/
def runSymbolsV2 (env : Env) (table : TableV2) (symbols : List String) :
    List (Option QuoteResult) :=
  symbols.map (fun s => (fetchQuoteWithCacheV2 env table s).result)

/-- The second variant's `exports.handler`: same control flow; the
multi-quote body carries `success: true`. -/
def handlerV2 (env : Env) (table : TableV2) (e : Event) : Response :=
  let symbols := resolveSymbolsV2 e
  if symbols.length = 0 then errorResponse env.nowIso "No symbols provided."
  else
    let validQuotes := (runSymbolsV2 env table symbols).filterMap id
    if truthyStr e.pathSymbol then
      match validQuotes with
      | [] =>
        errorResponse env.nowIso ("Stock symbol '" ++ symbols.headD "" ++ "' not found.")
      | q :: _ => successResponse (.singleQuote (symbols.headD "") q q.cached)
    else
      successResponse (.multiQuote (some true) validQuotes env.nowIso
        (validQuotes.filter (fun q => q.cached)).length
        (validQuotes.filter (fun q => !q.cached)).length)

/-- Forgets the top-level `success` flag of a multi-quote body — the one
response-payload difference the spec attributes to the duplicated
handlers. -/
def eraseSuccessFlag (r : Response) : Response :=
  match r with
  | { statusCode := c, body := .multiQuote _ qs t ca f } =>
    { statusCode := c, body := .multiQuote none qs t ca f }
  | r => r

/-! Concrete fixtures used by the witness theorems. -/

/-- A fully formed quote, as `fetchFromAlphaVantage` produces. -/
def sampleQuote : Quote :=
  { symbol := "AAPL", price := 178, change := 2, changePct := 1, volume := 58123456,
    latestTradingDay := "2024-01-15", previousClose := 176, openPrice := 177,
    high := 179, low := 176 }

/-- A cache item for AAPL that is fresh at epoch second 950. -/
def sampleItem : CacheItem :=
  { symbol := "AAPL", dataType := "quote", data := sampleQuote, ttl := 1000,
    timestamp := 900, updatedAt := "2024-01-15T10:15:00.000Z" }

/-- An environment whose provider fails at the transport level for
every symbol — the spec's injected fake provider that must not be
reached on a cache hit. -/
def hitEnv : Env :=
  { now := 950, nowIso := "2024-01-15T10:15:50.000Z", today := "2024-01-15",
    cacheTtl := 45, apiKey := some "KEY", getFails := false, putFails := false,
    provider := fun _ => .fail }

/-- An environment whose provider answers every symbol with a clean
quote. -/
def okEnv : Env :=
  { now := 950, nowIso := "2024-01-15T10:15:50.000Z", today := "2024-01-15",
    cacheTtl := 45, apiKey := some "KEY", getFails := false, putFails := false,
    provider := fun _ => .resp none none (some sampleQuote) }

/-! Shared lemmas. -/

/-- Each of the five provider error kinds makes `fetchFromAlphaVantage`
return `null`. -/
theorem fetchFromAlphaVantage_error (apiKey : Option String) (http : AvHttp)
    (h : isProviderError apiKey http = true) :
    fetchFromAlphaVantage apiKey http = none := by
  cases apiKey with
  | none => rfl
  | some k =>
    cases http with
    | fail => rfl
    | resp errorMessage note globalQuote =>
      simp only [isProviderError, Option.isNone_some, Bool.false_or] at h
      cases errorMessage <;> cases note <;> cases globalQuote <;>
        simp_all [fetchFromAlphaVantage]

/-! Claim theorems. -/

/-- C1: when the cache holds a readable entry for `(symbol, "quote")`
that is fresh (`expiresAtEpochSeconds > now`), `fetchQuoteWithCache`
returns exactly that cached quote with `cached := true`, issues no
provider request, and makes no store call. -/
theorem cache_hit_returns_cached_quote (env : Env) (table : Table) (symbol : String)
    (item : CacheItem)
    (hread : env.getFails = false)
    (hfound : tableGet table symbol "quote" = some item)
    (hfresh : env.now < item.ttl) :
    (fetchQuoteWithCache env table symbol).result =
        some { quote := item.data, cached := true } ∧
    (fetchQuoteWithCache env table symbol).providerCalls = 0 ∧
    (fetchQuoteWithCache env table symbol).storePuts = [] := by
  have hget : getFromCache env.now table env.getFails symbol = some item.data := by
    unfold getFromCache
    rw [hread, hfound]
    simp [hfresh]
  unfold fetchQuoteWithCache
  rw [hget]
  exact ⟨rfl, rfl, rfl⟩

/-- Witness for C1 at a concrete fresh entry and a provider that would
fail if called. -/
theorem cache_hit_returns_cached_quote_witness :
    hitEnv.getFails = false ∧
    tableGet [sampleItem] "AAPL" "quote" = some sampleItem ∧
    hitEnv.now < sampleItem.ttl ∧
    ((fetchQuoteWithCache hitEnv [sampleItem] "AAPL").result =
        some { quote := sampleItem.data, cached := true } ∧
      (fetchQuoteWithCache hitEnv [sampleItem] "AAPL").providerCalls = 0 ∧
      (fetchQuoteWithCache hitEnv [sampleItem] "AAPL").storePuts = []) :=
  ⟨rfl, by decide, by decide,
    cache_hit_returns_cached_quote hitEnv [sampleItem] "AAPL" sampleItem rfl
      (by decide) (by decide)⟩

/-- C2: cache lookup returns a stored quote exactly when the read
succeeds, an item exists under `(symbol, "quote")`, and the item's
expiry is strictly in the future; an expired item, a missing item and a
store-access failure all collapse into the same `none`. -/
theorem lookup_fresh_iff (now : Nat) (table : Table) (getFails : Bool)
    (symbol : String) (q : Quote) :
    getFromCache now table getFails symbol = some q ↔
      getFails = false ∧ ∃ item, tableGet table symbol "quote" = some item ∧
        now < item.ttl ∧ item.data = q := by
  unfold getFromCache
  cases getFails with
  | true => simp
  | false =>
    cases h : tableGet table symbol "quote" with
    | none => simp [h]
    | some item =>
      by_cases hf : now < item.ttl <;> simp [h, hf]

/-- C4: on a cache miss followed by a provider success, exactly one
store call is attempted, its item carries the fetched quote and expiry
`now + cacheTtl`, and the call returns `{...quote, cached:false}` —
all of this for either value of `env.putFails`, i.e. whether the store
call succeeds or fails. -/
theorem miss_then_success_stores_once (env : Env) (table : Table) (symbol : String)
    (q : Quote)
    (hmiss : getFromCache env.now table env.getFails symbol = none)
    (hfetch : fetchFromAlphaVantage env.apiKey (env.provider symbol) = some q) :
    (fetchQuoteWithCache env table symbol).storePuts = [cacheItemFor env symbol q] ∧
    (cacheItemFor env symbol q).data = q ∧
    (cacheItemFor env symbol q).ttl = env.now + env.cacheTtl ∧
    (fetchQuoteWithCache env table symbol).result =
      some { quote := q, cached := false } := by
  unfold fetchQuoteWithCache
  rw [hmiss, hfetch]
  exact ⟨rfl, rfl, rfl, rfl⟩

/-- Witness for C4: a concrete miss on an empty table with a clean
provider response. -/
theorem miss_then_success_stores_once_witness :
    getFromCache okEnv.now [] okEnv.getFails "MSFT" = none ∧
    fetchFromAlphaVantage okEnv.apiKey (okEnv.provider "MSFT") = some sampleQuote ∧
    ((fetchQuoteWithCache okEnv [] "MSFT").storePuts =
        [cacheItemFor okEnv "MSFT" sampleQuote] ∧
      (cacheItemFor okEnv "MSFT" sampleQuote).data = sampleQuote ∧
      (cacheItemFor okEnv "MSFT" sampleQuote).ttl = okEnv.now + okEnv.cacheTtl ∧
      (fetchQuoteWithCache okEnv [] "MSFT").result =
        some { quote := sampleQuote, cached := false }) :=
  ⟨rfl, rfl, miss_then_success_stores_once okEnv [] "MSFT" sampleQuote rfl rfl⟩

/-- C8: storing a quote (with the store call succeeding) and looking the
symbol up at any time strictly before the written expiry
`now + cacheTtl` returns a quote deep-equal to the stored one. -/
theorem store_then_lookup_roundtrip (env : Env) (table : Table) (symbol : String)
    (q : Quote) (lookupNow : Nat)
    (hstore : env.putFails = false)
    (httl : 0 < env.cacheTtl)
    (hbefore : lookupNow < env.now + env.cacheTtl) :
    getFromCache lookupNow (saveToCache env table symbol q) false symbol = some q := by
  unfold saveToCache
  rw [hstore]
  simp only [Bool.false_eq_true, if_false]
  unfold getFromCache tableGet putItem
  rw [List.find?_cons_of_pos]
  · simp [cacheItemFor, hbefore]
  · simp [cacheItemFor]

/-- Witness for C8 at concrete times: store at 950 with TTL 45, look up
at 960 < 995. -/
theorem store_then_lookup_roundtrip_witness :
    okEnv.putFails = false ∧ 0 < okEnv.cacheTtl ∧ 960 < okEnv.now + okEnv.cacheTtl ∧
    getFromCache 960 (saveToCache okEnv [sampleItem] "AAPL" sampleQuote) false "AAPL" =
      some sampleQuote :=
  ⟨rfl, by decide, by decide,
    store_then_lookup_roundtrip okEnv [sampleItem] "AAPL" sampleQuote 960 rfl
      (by decide) (by decide)⟩

/-- The fan-out is positionwise: the outcome at index `j` is the
independent `fetchQuoteWithCache` run for the symbol at index `j`. -/
theorem runSymbols_getD (env : Env) (table : Table) (symbols : List String) (j : Nat)
    (hj : j < symbols.length) :
    (runSymbols env table symbols).getD j none =
      (fetchQuoteWithCache env table (symbols.getD j "")).result := by
  unfold runSymbols
  rw [List.getD_eq_getElem?_getD, List.getElem?_map, List.getD_eq_getElem?_getD,
    List.getElem?_eq_getElem hj]
  rfl

/-- An environment whose provider has no data for ZZZZ and clean
quotes for every other symbol. -/
def mixedEnv : Env :=
  { now := 950, nowIso := "2024-01-15T10:15:50.000Z", today := "2024-01-15",
    cacheTtl := 45, apiKey := some "KEY", getFails := false, putFails := false,
    provider := fun s => if s == "ZZZZ" then .resp none none none
      else .resp none none (some sampleQuote) }

/-- C3: a provider error of any kind (missing credential, transport
failure, upstream "Error Message", rate-limit "Note", or no data) for
the symbol at index `i` yields `none` for that symbol only: the fan-out
still produces one outcome per requested symbol, and every sibling's
outcome equals its own independent per-symbol resolution. -/
theorem provider_error_isolated (env : Env) (table : Table) (symbols : List String)
    (i : Nat) (hi : i < symbols.length)
    (hmiss : getFromCache env.now table env.getFails (symbols.getD i "") = none)
    (herr : isProviderError env.apiKey (env.provider (symbols.getD i "")) = true) :
    (runSymbols env table symbols).getD i none = none ∧
    (runSymbols env table symbols).length = symbols.length ∧
    ∀ j, j < symbols.length → j ≠ i →
      (runSymbols env table symbols).getD j none =
        (fetchQuoteWithCache env table (symbols.getD j "")).result := by
  refine ⟨?_, by simp [runSymbols], fun j hj _ => runSymbols_getD env table symbols j hj⟩
  rw [runSymbols_getD env table symbols i hi]
  unfold fetchQuoteWithCache
  rw [hmiss, fetchFromAlphaVantage_error _ _ herr]

/-- Witness for C3: ZZZZ (no data) at index 1 among AAPL and MSFT. -/
theorem provider_error_isolated_witness :
    getFromCache mixedEnv.now [] mixedEnv.getFails
        ((["AAPL", "ZZZZ", "MSFT"] : List String).getD 1 "") = none ∧
    isProviderError mixedEnv.apiKey
        (mixedEnv.provider ((["AAPL", "ZZZZ", "MSFT"] : List String).getD 1 "")) = true ∧
    (runSymbols mixedEnv [] ["AAPL", "ZZZZ", "MSFT"]).getD 1 none = none ∧
    (runSymbols mixedEnv [] ["AAPL", "ZZZZ", "MSFT"]).length = 3 ∧
    (runSymbols mixedEnv [] ["AAPL", "ZZZZ", "MSFT"]).getD 0 none =
      (fetchQuoteWithCache mixedEnv [] "AAPL").result := by
  have h := provider_error_isolated mixedEnv [] ["AAPL", "ZZZZ", "MSFT"] 1
    (by decide) rfl rfl
  exact ⟨rfl, rfl, h.1, h.2.1, h.2.2 0 (by decide) (by decide)⟩

/-- C5: the SINGLE shape (a truthy path symbol) with an absent sole
outcome composes the 400 error payload `{success:false, error:
"Stock symbol '<symbol>' not found.", timestamp}`, while the MULTI
shape with every outcome absent composes a 200 success payload with an
empty quote list and `cached:0, fresh:0`. -/
theorem absent_composition_by_shape (env : Env) (table : Table) (e : Event) :
    (∀ s, e.pathSymbol = some s → s ≠ "" →
        (fetchQuoteWithCache env table (normalize s)).result = none →
        handler env table e =
          errorResponse env.nowIso ("Stock symbol '" ++ normalize s ++ "' not found.")) ∧
    (truthyStr e.pathSymbol = false → resolveSymbols e ≠ [] →
        (∀ s ∈ resolveSymbols e, (fetchQuoteWithCache env table s).result = none) →
        handler env table e = successResponse (.multiQuote none [] env.nowIso 0 0)) := by
  constructor
  · intro s hs hne habs
    have hpath : truthyStr e.pathSymbol = true := by
      rw [hs]; simp [truthyStr, hne]
    have hres : resolveSymbols e = [normalize s] := by
      have htr : truthyStr (some s) = true := by simp [truthyStr, hne]
      unfold resolveSymbols
      rw [hs, if_pos htr]
      rfl
    simp only [handler, runSymbols]
    rw [hres]
    simp [hpath, habs]
  · intro hpath hne habs
    have hlen : ¬((resolveSymbols e).length = 0) := by
      simpa [List.length_eq_zero] using hne
    have hvq : (runSymbols env table (resolveSymbols e)).filterMap id = [] := by
      refine List.filterMap_eq_nil_iff.mpr ?_
      intro a ha
      rcases List.mem_map.mp ha with ⟨s, hmem, rfl⟩
      exact habs s hmem
    simp only [handler]
    rw [if_neg hlen]
    simp only [hpath, Bool.false_eq_true, if_false]
    rw [hvq]
    rfl

/-- Witness for C5: the path trigger ZZZZ with a no-data provider, and
a query trigger whose two symbols both have no data. -/
theorem absent_composition_by_shape_witness :
    (fetchQuoteWithCache mixedEnv [] (normalize "ZZZZ")).result = none ∧
    handler mixedEnv []
        { pathSymbol := some "ZZZZ", querySymbols := none, eventSymbols := none } =
      errorResponse mixedEnv.nowIso "Stock symbol 'ZZZZ' not found." ∧
    handler hitEnv []
        { pathSymbol := none, querySymbols := some "AAPL,MSFT", eventSymbols := none } =
      successResponse (.multiQuote none [] hitEnv.nowIso 0 0) := by
  refine ⟨by decide, ?_, ?_⟩
  · have h := (absent_composition_by_shape mixedEnv []
      { pathSymbol := some "ZZZZ", querySymbols := none, eventSymbols := none }).1
      "ZZZZ" rfl (by decide) (by decide)
    simpa using h
  · exact (absent_composition_by_shape hitEnv []
      { pathSymbol := none, querySymbols := some "AAPL,MSFT", eventSymbols := none }).2
      rfl (by decide) (by decide)

/-- C6: symbol resolution is first-match-wins — truthy path symbol
(one symbol), else truthy comma-separated query value (split on commas),
else an explicit array, else the fixed default list — each branch
normalizing by trim+uppercase (the default list is already in
normalized form, as the final conjunct records). -/
theorem resolveSymbols_first_match (e : Event) :
    (∀ s, e.pathSymbol = some s → s ≠ "" → resolveSymbols e = [normalize s]) ∧
    (truthyStr e.pathSymbol = false → ∀ qs, e.querySymbols = some qs → qs ≠ "" →
        resolveSymbols e = (jsSplitComma qs).map normalize) ∧
    (truthyStr e.pathSymbol = false → truthyStr e.querySymbols = false →
        ∀ l, e.eventSymbols = some l → resolveSymbols e = l.map normalize) ∧
    (truthyStr e.pathSymbol = false → truthyStr e.querySymbols = false →
        e.eventSymbols = none → resolveSymbols e = DEFAULT_SYMBOLS) ∧
    DEFAULT_SYMBOLS.all (fun s => normalize s == s) = true := by
  refine ⟨?_, ?_, ?_, ?_, by decide⟩
  · intro s hs hne
    have htr : truthyStr (some s) = true := by simp [truthyStr, hne]
    unfold resolveSymbols
    rw [hs, if_pos htr]
    rfl
  · intro hpath qs hqs hne
    have htr : truthyStr (some qs) = true := by simp [truthyStr, hne]
    unfold resolveSymbols
    rw [hpath, if_neg Bool.false_ne_true, hqs, if_pos htr]
    rfl
  · intro hpath hq l hl
    unfold resolveSymbols
    rw [hpath, if_neg Bool.false_ne_true, hq, if_neg Bool.false_ne_true, hl]
  · intro hpath hq hl
    unfold resolveSymbols
    rw [hpath, if_neg Bool.false_ne_true, hq, if_neg Bool.false_ne_true, hl]

/-- Events exercising the four resolution branches. -/
def pathEvent : Event :=
  { pathSymbol := some "  aapl ", querySymbols := some "msft", eventSymbols := none }

def queryEvent : Event :=
  { pathSymbol := none, querySymbols := some "aapl, msft", eventSymbols := some ["X"] }

def listEvent : Event :=
  { pathSymbol := none, querySymbols := none, eventSymbols := some ["tsla "] }

def emptyEvent : Event :=
  { pathSymbol := none, querySymbols := none, eventSymbols := none }

/-- Witness for C6: one concrete event per branch, with trimming and
uppercasing visible in the first three. -/
theorem resolveSymbols_first_match_witness :
    resolveSymbols pathEvent = ["AAPL"] ∧
    resolveSymbols queryEvent = ["AAPL", "MSFT"] ∧
    resolveSymbols listEvent = ["TSLA"] ∧
    resolveSymbols emptyEvent = DEFAULT_SYMBOLS := by
  have h1 := (resolveSymbols_first_match pathEvent).1 "  aapl " rfl (by decide)
  have h2 := (resolveSymbols_first_match queryEvent).2.1 rfl "aapl, msft" rfl (by decide)
  have h3 := (resolveSymbols_first_match listEvent).2.2.1 rfl rfl ["tsla "] rfl
  have h4 := (resolveSymbols_first_match emptyEvent).2.2.2.1 rfl rfl rfl
  refine ⟨?_, ?_, ?_, h4⟩
  · rw [h1]; decide
  · rw [h2]; decide
  · rw [h3]; decide

/-- C7: the invocation produces the "No symbols provided." error payload
exactly when the resolved symbol sequence is empty, and an empty
resolution is reachable only from an explicit empty `symbols` array in
the trigger (the path and query branches require truthy — hence
non-empty — strings, a comma-split is never empty, and the default list
is non-empty). -/
theorem no_symbols_error_characterization (env : Env) (table : Table) (e : Event) :
    (handler env table e = errorResponse env.nowIso "No symbols provided." ↔
        resolveSymbols e = []) ∧
    (resolveSymbols e = [] → e.eventSymbols = some []) := by
  have hmsg : ∀ x : String,
      ("Stock symbol '" ++ x ++ "' not found.") ≠ "No symbols provided." := by
    intro x hx
    have hlen := congrArg String.length hx
    rw [String.length_append, String.length_append] at hlen
    have h1 : ("Stock symbol '" : String).length = 14 := rfl
    have h2 : ("' not found." : String).length = 12 := rfl
    have h3 : ("No symbols provided." : String).length = 20 := rfl
    omega
  refine ⟨⟨?_, ?_⟩, ?_⟩
  · intro hh
    simp only [handler] at hh
    split at hh
    · next hcond => exact List.length_eq_zero.mp hcond
    · next hcond =>
      exfalso
      split at hh
      · split at hh
        · simp only [errorResponse, Response.mk.injEq, Body.err.injEq, true_and] at hh
          exact hmsg _ hh.1
        · simp [successResponse, errorResponse, Response.mk.injEq] at hh
      · simp [successResponse, errorResponse, Response.mk.injEq] at hh
  · intro hres
    simp [handler, hres]
  · intro hres
    unfold resolveSymbols at hres
    by_cases hp : truthyStr e.pathSymbol
    · rw [if_pos hp] at hres
      exact absurd hres (by simp)
    · rw [if_neg hp] at hres
      by_cases hq : truthyStr e.querySymbols
      · rw [if_pos hq] at hres
        exfalso
        have h1 := List.map_eq_nil_iff.mp hres
        unfold jsSplitComma at h1
        have h2 := List.map_eq_nil_iff.mp h1
        unfold List.splitOn at h2
        exact List.splitOnP_ne_nil _ _ h2
      · rw [if_neg hq] at hres
        cases hl : e.eventSymbols with
        | some l =>
          rw [hl] at hres
          have : l = [] := List.map_eq_nil_iff.mp hres
          rw [this]
        | none =>
          rw [hl] at hres
          exact absurd hres (by simp [DEFAULT_SYMBOLS])

/-- The trigger carrying an explicit empty symbol array. -/
def emptyListEvent : Event :=
  { pathSymbol := none, querySymbols := none, eventSymbols := some [] }

/-- Witness for C7: the empty-array trigger yields the error payload,
and its empty resolution indeed came from `symbols: []`. -/
theorem no_symbols_error_characterization_witness :
    handler okEnv [] emptyListEvent = errorResponse okEnv.nowIso "No symbols provided." ∧
    emptyListEvent.eventSymbols = some [] :=
  ⟨(no_symbols_error_characterization okEnv [] emptyListEvent).1.mpr (by decide),
    (no_symbols_error_characterization okEnv [] emptyListEvent).2 (by decide)⟩

/-- C10: a MULTI-shape invocation with a non-empty resolution composes
a success payload whose quote list is exactly the non-absent outcomes of
the positionwise fan-out, in request order; the fan-out covers every
requested symbol at its own index, and the cached and fresh tallies sum
to the quote list's length. -/
theorem multi_response_composition (env : Env) (table : Table) (e : Event)
    (hshape : truthyStr e.pathSymbol = false)
    (hne : resolveSymbols e ≠ []) :
    handler env table e = successResponse (.multiQuote none
        ((runSymbols env table (resolveSymbols e)).filterMap id) env.nowIso
        (((runSymbols env table (resolveSymbols e)).filterMap id).filter
            (fun q => q.cached)).length
        (((runSymbols env table (resolveSymbols e)).filterMap id).filter
            (fun q => !q.cached)).length) ∧
    (runSymbols env table (resolveSymbols e)).length = (resolveSymbols e).length ∧
    (∀ j, j < (resolveSymbols e).length →
        (runSymbols env table (resolveSymbols e)).getD j none =
          (fetchQuoteWithCache env table ((resolveSymbols e).getD j "")).result) ∧
    (((runSymbols env table (resolveSymbols e)).filterMap id).filter
        (fun q => q.cached)).length +
      (((runSymbols env table (resolveSymbols e)).filterMap id).filter
        (fun q => !q.cached)).length =
      ((runSymbols env table (resolveSymbols e)).filterMap id).length := by
  have hlen : ¬((resolveSymbols e).length = 0) := by
    simpa [List.length_eq_zero] using hne
  refine ⟨?_, by simp [runSymbols],
    fun j hj => runSymbols_getD env table (resolveSymbols e) j hj, ?_⟩
  · simp only [handler]
    rw [if_neg hlen]
    simp only [hshape, Bool.false_eq_true, if_false]
  · exact (@List.length_eq_length_filter_add QuoteResult
      ((runSymbols env table (resolveSymbols e)).filterMap id) (fun q => q.cached)).symm

/-- Witness for C10: the two-symbol query trigger against an empty
cache and a clean provider. -/
theorem multi_response_composition_witness :
    truthyStr queryEvent.pathSymbol = false ∧
    resolveSymbols queryEvent ≠ [] ∧
    handler okEnv [] queryEvent = successResponse (.multiQuote none
        ((runSymbols okEnv [] (resolveSymbols queryEvent)).filterMap id) okEnv.nowIso
        (((runSymbols okEnv [] (resolveSymbols queryEvent)).filterMap id).filter
            (fun q => q.cached)).length
        (((runSymbols okEnv [] (resolveSymbols queryEvent)).filterMap id).filter
            (fun q => !q.cached)).length) ∧
    (runSymbols okEnv [] (resolveSymbols queryEvent)).getD 0 none =
      (fetchQuoteWithCache okEnv [] ((resolveSymbols queryEvent).getD 0 "")).result ∧
    (((runSymbols okEnv [] (resolveSymbols queryEvent)).filterMap id).filter
        (fun q => q.cached)).length +
      (((runSymbols okEnv [] (resolveSymbols queryEvent)).filterMap id).filter
        (fun q => !q.cached)).length =
      ((runSymbols okEnv [] (resolveSymbols queryEvent)).filterMap id).length := by
  have h := multi_response_composition okEnv [] queryEvent rfl (by decide)
  exact ⟨rfl, by decide, h.1, h.2.2.1 0 (by decide), h.2.2.2⟩

/-- C9 counterexample: on the no-symbol trigger, with identical
configuration and clock, identical provider behaviour and both caches
empty, the two handler variants return different response payloads even
after discounting the multi-quote `success` flag — variant 1 fans out
over its ten default tickers, variant 2 over its six. -/
theorem variants_differ_on_default_trigger :
    eraseSuccessFlag (handler okEnv [] emptyEvent) ≠
      eraseSuccessFlag (handlerV2 okEnv [] emptyEvent) := by decide

/-- C9 amended: on every trigger that supplies symbols explicitly (a
truthy path symbol, a truthy query value, or a `symbols` array), with
the same environment and an empty cache, the two variants compose equal
responses up to the multi-quote `success` flag. -/
theorem variants_agree_on_explicit_symbols (env : Env) (e : Event)
    (h : truthyStr e.pathSymbol = true ∨ truthyStr e.querySymbols = true ∨
        e.eventSymbols.isSome = true) :
    eraseSuccessFlag (handler env [] e) = eraseSuccessFlag (handlerV2 env [] e) := by
  have hsym : resolveSymbolsV2 e = resolveSymbols e := by
    unfold resolveSymbols resolveSymbolsV2
    by_cases hp : truthyStr e.pathSymbol
    · rw [if_pos hp, if_pos hp]
    · rw [if_neg hp, if_neg hp]
      by_cases hq : truthyStr e.querySymbols
      · rw [if_pos hq, if_pos hq]
      · rw [if_neg hq, if_neg hq]
        cases hl : e.eventSymbols with
        | some l => rfl
        | none =>
          exfalso
          rcases h with h | h | h
          · exact hp h
          · exact hq h
          · rw [hl] at h; exact Bool.false_ne_true h
  have hfetch : ∀ s, (fetchQuoteWithCacheV2 env [] s).result =
      (fetchQuoteWithCache env [] s).result := by
    intro s
    have hg2 : getFromCacheV2 env.now env.today [] env.getFails s = none := by
      unfold getFromCacheV2 tableGetV2
      cases env.getFails <;> simp [List.find?]
    have hg1 : getFromCache env.now [] env.getFails s = none := by
      unfold getFromCache tableGet
      cases env.getFails <;> simp [List.find?]
    unfold fetchQuoteWithCacheV2 fetchQuoteWithCache
    rw [hg1, hg2]
    cases fetchFromAlphaVantage env.apiKey (env.provider s) <;> rfl
  have hrun : runSymbolsV2 env [] (resolveSymbols e) =
      runSymbols env [] (resolveSymbols e) :=
    List.map_congr_left (fun s _ => hfetch s)
  simp only [handler, handlerV2]
  rw [hsym, hrun]
  by_cases hlen : (resolveSymbols e).length = 0
  · rw [if_pos hlen, if_pos hlen]
  · rw [if_neg hlen, if_neg hlen]
    by_cases hp : truthyStr e.pathSymbol
    · rw [if_pos hp, if_pos hp]
    · rw [if_neg hp, if_neg hp]
      rfl

/-- Witness for the amended C9 at the concrete two-symbol query
trigger. -/
theorem variants_agree_on_explicit_symbols_witness :
    (truthyStr queryEvent.pathSymbol = true ∨ truthyStr queryEvent.querySymbols = true ∨
        queryEvent.eventSymbols.isSome = true) ∧
    eraseSuccessFlag (handler okEnv [] queryEvent) =
      eraseSuccessFlag (handlerV2 okEnv [] queryEvent) :=
  ⟨Or.inr (Or.inl rfl),
    variants_agree_on_explicit_symbols okEnv queryEvent (Or.inr (Or.inl rfl))⟩

end StockFetcher
